import Mathlib

/-!
Shallow embedding of the SpendLens UI application (src/main.py): the
category-color hash, the spending and balance aggregation queries, the
filter/sort/pagination builder of the record browser, and the two bulk
mutation endpoints.  Machine-level caveats of the host (Python) are noted
at each definition.  Amounts are modelled as exact rationals (the store
column is a signed decimal; Python converts the summed value with float(),
which we idealize as exact arithmetic).
-/

namespace SpendLens

/-- Fixed palette of 10 colors, from get_category_color in src/main.py. -/
def colors : List String :=
  ["#FF6384", "#36A2EB", "#FFCE56", "#4BC0C0", "#9966FF",
   "#FF9F40", "#8AC27A", "#E763B5", "#FFC107", "#663399"]

/-- Rolling hash of get_category_color: for each character,
hash_value = ord(char) + ((hash_value << 5) - hash_value).  Python integers
are unbounded, so the value is an exact integer; ord gives the Unicode code
point, which is Char.toNat.  A left shift by 5 is multiplication by 32. -/
def hashValue (category : String) : Int :=
  category.data.foldl (fun h c => (c.toNat : Int) + (h * 32 - h)) 0

/-- get_category_color from src/main.py: index = abs(hash_value) % len(colors),
then colors[index]. -/
def get_category_color (category : String) : String :=
  colors.get ⟨(hashValue category).natAbs % colors.length,
    Nat.mod_lt _ (by norm_num [colors])⟩

/-- Row of the processed_records table (schema of src/main.py queries):
record_id_bank, transaction_date, currency_date, account, description,
amount, currency, category (nullable). Dates are kept opaque as strings. -/
structure ProcessedRecord where
  record_id_bank : String
  transaction_date : String
  currency_date : String
  account : String
  description : String
  amount : Rat
  currency : String
  category : Option String
  deriving DecidableEq

/-- Row-level label substitution of the spending query select list:
COALESCE(category, 'Uncategorized'). -/
def coalesceCategory : Option String → String
  | none => "Uncategorized"
  | some s => s

/-- Python truthiness of an optional string: None and the empty string are
falsy.  Used for `if category_filter:` style checks in src/main.py. -/
def falsy : Option String → Bool
  | none => true
  | some s => s == ""

/-- Category restriction of get_spending_data: when a truthy category_filter
is supplied the query appends `AND category = %s` (exact equality; a NULL
category never equals a literal), otherwise no restriction. -/
def applyCategoryFilter (rows : List ProcessedRecord) (category_filter : Option String) :
    List ProcessedRecord :=
  match category_filter with
  | none => rows
  | some c => if c = "" then rows else rows.filter (fun r => r.category = some c)

/-- Distinct grouping keys of the spending query.  The query reads
GROUP BY category; PostgreSQL resolves the ambiguous name to the INPUT
column of processed_records, not to the COALESCE output alias, so the group
key is the raw nullable category. -/
def groupKeys (rows : List ProcessedRecord) : List (Option String) :=
  (rows.map (fun r => r.category)).dedup

/-- SUM(amount) of one raw-category group of the spending query. -/
def groupSum (rows : List ProcessedRecord) (k : Option String) : Rat :=
  ((rows.filter (fun r => r.category = k)).map (fun r => r.amount)).sum

/-- ORDER BY total_amount DESC of the spending query. -/
def sortByAmountDesc (l : List (String × Rat)) : List (String × Rat) :=
  l.insertionSort (fun a b => b.2 ≤ a.2)

/-- Result rows of the spending aggregation query of get_spending_data:
group the rows of the resolved date window by raw category, label each group
with COALESCE(category, 'Uncategorized'), sum the amounts, and order by the
summed amount descending. -/
def runSpendingQuery (rows : List ProcessedRecord) (category_filter : Option String) :
    List (String × Rat) :=
  let filtered := applyCategoryFilter rows category_filter
  sortByAmountDesc
    ((groupKeys filtered).map (fun k => (coalesceCategory k, groupSum filtered k)))

/-- get_spending_data from src/main.py.  The argument db is the outcome of
connecting and executing the aggregation query over the rows of the resolved
date window (the date WHERE clause references CURRENT_DATE and is abstracted
as the row set handed in); an error represents any data-access exception.
On success the handler loop builds the item list and accumulates
total_spending as the sum of the returned amounts; on failure the function
returns ([], 0). -/
def get_spending_data (db : Except String (List ProcessedRecord))
    (category_filter : Option String) : List (String × Rat) × Rat :=
  match db with
  | Except.error _ => ([], 0)
  | Except.ok rows =>
    let items := runSpendingQuery rows category_filter
    (items, (items.map (fun it => it.2)).sum)

/-- Number of returned spending items labelled Uncategorized. -/
def countUncategorizedLabel (items : List (String × Rat)) : Nat :=
  items.countP (fun it => it.1 = "Uncategorized")

/-- Raw row of the monthly balance query of get_monthly_yearly_balances:
year, month, SUM(amount) (null for an empty sum), and the CASE status. -/
structure MonthlyRow where
  year : Int
  month : Int
  total_amount : Option Rat
  balance_status : String

/-- Raw row of the yearly balance query. -/
structure YearlyRow where
  year : Int
  total_amount : Option Rat
  balance_status : String

/-- Formatted monthly balance entry of get_monthly_yearly_balances. -/
structure MonthlyBalance where
  year : Int
  month : Int
  month_name : String
  amount : Rat
  status : String

/-- Formatted yearly balance entry of get_monthly_yearly_balances. -/
structure YearlyBalance where
  year : Int
  amount : Rat
  status : String

/-- Fixed calendar table of get_monthly_yearly_balances. -/
def month_names : List String :=
  ["January", "February", "March", "April", "May", "June",
   "July", "August", "September", "October", "November", "December"]

/-- CASE WHEN SUM(amount) > 0 THEN positive WHEN < 0 THEN negative ELSE zero
of the two balance queries. -/
def balanceStatus (s : Rat) : String :=
  if s > 0 then "positive" else if s < 0 then "negative" else "zero"

/-- Formatting of one monthly record in get_monthly_yearly_balances:
month_names[month - 1] when 1 <= month <= 12 else Unknown, and a null sum
replaced by 0.0. -/
def formatMonthly (r : MonthlyRow) : MonthlyBalance :=
  { year := r.year
    month := r.month
    month_name :=
      if 1 ≤ r.month ∧ r.month ≤ 12 then month_names.getD (r.month - 1).toNat "Unknown"
      else "Unknown"
    amount := r.total_amount.getD 0
    status := r.balance_status }

/-- Formatting of one yearly record in get_monthly_yearly_balances. -/
def formatYearly (r : YearlyRow) : YearlyBalance :=
  { year := r.year
    amount := r.total_amount.getD 0
    status := r.balance_status }

/-- get_monthly_yearly_balances from src/main.py.  The argument db is the
outcome of executing the two balance queries; an error represents any
data-access exception, in which case the function returns two empty lists. -/
def get_monthly_yearly_balances
    (db : Except String (List MonthlyRow × List YearlyRow)) :
    List MonthlyBalance × List YearlyBalance :=
  match db with
  | Except.error _ => ([], [])
  | Except.ok rows => (rows.1.map formatMonthly, rows.2.map formatYearly)

/-- Page-number normalization of the index, admin and record_transformer
handlers: request.args.get with default 1 and type=int yields the default
for a missing or non-numeric value (modelled as none), then `if page < 1:
page = 1`. -/
def normalizePage (raw : Option Int) : Int :=
  let page := raw.getD 1
  if page < 1 then 1 else page

/-- Page-size normalization of the same handlers: default 10 for a missing
or non-numeric value, then `if per_page < 1 or per_page > 100: per_page = 10`. -/
def normalizePerPage (raw : Option Int) : Int :=
  let per_page := raw.getD 10
  if per_page < 1 ∨ per_page > 100 then 10 else per_page

/-- Row offset of the paginated queries: offset = (page - 1) * per_page. -/
def pageOffset (page per_page : Int) : Int :=
  (page - 1) * per_page

/-- Total-page computation of the admin and record_transformer handlers:
total_pages = (total_count + per_page - 1) // per_page.  COUNT(*) is a
natural number and the normalized per_page is at least 1, so Python floor
division is natural-number division. -/
def totalPages (total_count per_page : Nat) : Nat :=
  (total_count + per_page - 1) / per_page

/-- Sort-column allow-list of record_transformer (valid_sort_fields). -/
def valid_sort_fields : List String :=
  ["record_id_bank", "transaction_date", "currency_date", "account",
   "description", "amount", "currency", "category"]

/-- Sort-column validation of record_transformer: an input outside the
allow-list falls back to transaction_date. -/
def validateSortBy (sort_by : String) : String :=
  if sort_by ∈ valid_sort_fields then sort_by else "transaction_date"

/-- Sort-direction validation of record_transformer: an input outside
asc and desc falls back to desc. -/
def validateSortOrder (sort_order : String) : String :=
  if sort_order = "asc" ∨ sort_order = "desc" then sort_order else "desc"

/-- Bound query parameter: either a user-supplied string value or one of the
integer pagination values. -/
inductive SqlParam where
  | str (s : String)
  | int (n : Int)
  deriving DecidableEq

/-- Filter construction of record_transformer: where_clauses and params are
built side by side, appending `category = %s` for a truthy category filter
and `description ILIKE %s` (with the value wrapped in percent signs) for a
truthy search string. -/
def whereClausesParams (category_filter search_description : Option String) :
    List String × List SqlParam :=
  let categoryPart : List String × List SqlParam :=
    match category_filter with
    | none => ([], [])
    | some c => if c = "" then ([], []) else (["category = %s"], [SqlParam.str c])
  let searchPart : List String × List SqlParam :=
    match search_description with
    | none => ([], [])
    | some s =>
      if s = "" then ([], [])
      else (["description ILIKE %s"], [SqlParam.str ("%" ++ s ++ "%")])
  (categoryPart.1 ++ searchPart.1, categoryPart.2 ++ searchPart.2)

/-- WHERE fragment appended to both record_transformer queries: empty when
there are no clauses, otherwise the clauses joined with AND. -/
def whereSql (clauses : List String) : String :=
  let sep := " AND "
  if clauses = [] then "" else " WHERE " ++ String.intercalate sep clauses

/-- SELECT list and FROM clause of the record_transformer row-fetch query. -/
def recordTransformerBaseQuery : String :=
  "SELECT record_id_bank, transaction_date, currency_date, account, description, amount, currency, category FROM processed_records "

/-- ORDER BY, LIMIT and OFFSET tail of the record_transformer row-fetch
query, using the validated sort column and direction. -/
def orderLimitFragment (sort_by sort_order : String) : String :=
  " ORDER BY " ++ validateSortBy sort_by ++ " " ++ validateSortOrder sort_order ++
    " LIMIT %s OFFSET %s"

/-- Full text of the record_transformer row-fetch query. -/
def recordTransformerFetchQuery (category_filter search_description : Option String)
    (sort_by sort_order : String) : String :=
  recordTransformerBaseQuery ++
    whereSql (whereClausesParams category_filter search_description).1 ++
    orderLimitFragment sort_by sort_order

/-- Bound parameters of the row-fetch query: the filter values followed by
per_page and offset (params.extend([per_page, offset])). -/
def recordTransformerFetchParams (category_filter search_description : Option String)
    (per_page offset : Int) : List SqlParam :=
  (whereClausesParams category_filter search_description).2 ++
    [SqlParam.int per_page, SqlParam.int offset]

/-- Full text of the record_transformer count query: SELECT COUNT(*) with
the same rebuilt WHERE clause and no ORDER BY, LIMIT or OFFSET. -/
def recordTransformerCountQuery (category_filter search_description : Option String) :
    String :=
  "SELECT COUNT(*) FROM processed_records" ++
    whereSql (whereClausesParams category_filter search_description).1

/-- Bound parameters of the count query, exactly as the handler computes
them: params[:-2] when there are where clauses, otherwise the empty tuple. -/
def recordTransformerCountParams (category_filter search_description : Option String)
    (per_page offset : Int) : List SqlParam :=
  let ps := recordTransformerFetchParams category_filter search_description per_page offset
  if (whereClausesParams category_filter search_description).1 = [] then []
  else ps.take (ps.length - 2)

/-- Splitting a character list on commas: the model of Python
record_ids_str.split(','), which yields one (possibly empty) piece per
comma-separated segment. -/
def splitOnComma : List Char → List (List Char)
  | [] => [[]]
  | c :: rest =>
    match splitOnComma rest with
    | [] => [[]]
    | g :: gs => if c = ',' then [] :: g :: gs else (c :: g) :: gs

/-- Whitespace trimming of one piece: the model of Python str.strip(),
dropping leading and trailing whitespace characters. -/
def trimChars (l : List Char) : List Char :=
  ((l.dropWhile Char.isWhitespace).reverse.dropWhile Char.isWhitespace).reverse

/-- Record-id parsing shared by update_categories and delete_records:
[id.strip() for id in record_ids_str.split(',') if id.strip()], that is,
split on commas, trim each piece, and drop the pieces that are empty after
trimming. -/
def parseRecordIds (s : String) : List String :=
  ((splitOnComma s.data).map (fun g => String.mk (trimChars g))).filter
    (fun t => t ≠ "")

/-- UPDATE processed_records SET category = %s WHERE record_id_bank = ANY(%s):
every stored row whose bank record id is in the submitted set gets the new
category, all other rows are unchanged. -/
def applyUpdateCategories (store : List ProcessedRecord) (record_ids : List String)
    (new_category : String) : List ProcessedRecord :=
  store.map (fun r =>
    if r.record_id_bank ∈ record_ids then { r with category := some new_category } else r)

/-- DELETE FROM processed_records WHERE record_id_bank = ANY(%s). -/
def applyDeleteRecords (store : List ProcessedRecord) (record_ids : List String) :
    List ProcessedRecord :=
  store.filter (fun r => r.record_id_bank ∉ record_ids)

/-- Success message of update_categories, parameterized by the reported
count, which the handler takes from len(record_ids), the parsed submitted
ids. -/
def updateSuccessMessage (count : Nat) (new_category : String) : String :=
  "Successfully updated " ++ toString count ++ " records to category " ++ new_category

/-- Success message of delete_records, reporting len(record_ids). -/
def deleteSuccessMessage (count : Nat) : String :=
  "Successfully deleted " ++ toString count ++ " records"

/-- update_categories endpoint of src/main.py.  Inputs are the two optional
form fields; db_error injects a data-access exception raised while
connecting or executing the UPDATE, i.e. before conn.commit() runs.  The
result is the persisted store after the request together with the response
body and HTTP status: missing or blank input gives 400 before any database
work, a failed statement leaves the store unchanged (the transaction is
never committed) and gives 500 with the error text, and otherwise the
update is committed and the handler reports the count of submitted ids. -/
def update_categories (store : List ProcessedRecord)
    (record_ids_str new_category : Option String) (db_error : Option String) :
    List ProcessedRecord × String × Nat :=
  match record_ids_str, new_category with
  | some ids_str, some cat =>
    if ids_str = "" ∨ cat = "" then (store, "Missing record IDs or category", 400)
    else
      let record_ids := parseRecordIds ids_str
      if record_ids = [] then (store, "No valid record IDs provided", 400)
      else
        match db_error with
        | some e => (store, "Error updating categories: " ++ e, 500)
        | none =>
          (applyUpdateCategories store record_ids cat,
           updateSuccessMessage record_ids.length cat, 200)
  | _, _ => (store, "Missing record IDs or category", 400)

/-- delete_records endpoint of src/main.py, with the same id parsing,
failure injection and commit discipline as update_categories. -/
def delete_records (store : List ProcessedRecord) (record_ids_str : Option String)
    (db_error : Option String) : List ProcessedRecord × String × Nat :=
  match record_ids_str with
  | some ids_str =>
    if ids_str = "" then (store, "Missing record IDs", 400)
    else
      let record_ids := parseRecordIds ids_str
      if record_ids = [] then (store, "No valid record IDs provided", 400)
      else
        match db_error with
        | some e => (store, "Error deleting records: " ++ e, 500)
        | none =>
          (applyDeleteRecords store record_ids, deleteSuccessMessage record_ids.length, 200)
  | none => (store, "Missing record IDs", 400)

/-- Store with one NULL-category row and one row whose category is the
literal string Uncategorized, for probing the spending group key. -/
def c1Rows : List ProcessedRecord :=
  [{ record_id_bank := "r1", transaction_date := "2024-01-01",
     currency_date := "2024-01-01", account := "acc", description := "null row",
     amount := 10, currency := "EUR", category := none },
   { record_id_bank := "r2", transaction_date := "2024-01-02",
     currency_date := "2024-01-02", account := "acc", description := "literal row",
     amount := 20, currency := "EUR", category := some ("Uncategorized") }]

/-- The three-record example store of the specification: two Food rows with
amounts -50 and -30 and one NULL-category row with amount 200. -/
def c3Rows : List ProcessedRecord :=
  [{ record_id_bank := "f1", transaction_date := "2024-01-01",
     currency_date := "2024-01-01", account := "acc", description := "food one",
     amount := -50, currency := "EUR", category := some ("Food") },
   { record_id_bank := "f2", transaction_date := "2024-01-02",
     currency_date := "2024-01-02", account := "acc", description := "food two",
     amount := -30, currency := "EUR", category := some ("Food") },
   { record_id_bank := "n1", transaction_date := "2024-01-03",
     currency_date := "2024-01-03", account := "acc", description := "salary",
     amount := 200, currency := "EUR", category := none }]

/-- C3: on the example records, the unfiltered spending aggregation returns
the items Uncategorized 200 and Food -80 in descending order of summed
amount, and the caller-computed total of the returned amounts is 120. -/
theorem spending_example_unfiltered :
    get_spending_data (Except.ok c3Rows) none =
      ([(("Uncategorized" : String), (200 : Rat)), ("Food", -80)], 120) := by
  show (runSpendingQuery c3Rows none,
        ((runSpendingQuery c3Rows none).map (fun it => it.2)).sum) = _
  have hns : ((none : Option String) = some ("Food")) ↔ False := by simp
  have hsn : ((some ("Food") : Option String) = none) ↔ False := by simp
  have hkeys : groupKeys c3Rows = [some ("Food"), none] := by decide
  have hsum1 : groupSum c3Rows (some ("Food")) = -80 := by
    norm_num [groupSum, c3Rows, List.filter_cons, List.filter_nil, hns, hsn]
  have hsum2 : groupSum c3Rows none = 200 := by
    norm_num [groupSum, c3Rows, List.filter_cons, List.filter_nil,
      Option.some_ne_none]
  have hitems : runSpendingQuery c3Rows none =
      [(("Uncategorized" : String), (200 : Rat)), ("Food", -80)] := by
    show sortByAmountDesc
        ((groupKeys (applyCategoryFilter c3Rows none)).map
          (fun k => (coalesceCategory k, groupSum (applyCategoryFilter c3Rows none) k))) = _
    have hfil : applyCategoryFilter c3Rows none = c3Rows := rfl
    rw [hfil, hkeys]
    simp only [List.map_cons, List.map_nil, hsum1, hsum2, coalesceCategory]
    norm_num [sortByAmountDesc, List.insertionSort, List.orderedInsert]
  rw [hitems]
  norm_num

/-- C4: the category-color function is pure and deterministic, always
returns one of the ten palette colors, and equals the palette entry at
index abs(h) mod 10 where h is the rolling hash
h_new = code(c) + ((h_old << 5) - h_old) starting from 0. -/
theorem category_color_deterministic_in_palette (c : String) :
    get_category_color c = get_category_color c ∧
    get_category_color c ∈ colors ∧
    get_category_color c =
      colors.get ⟨(hashValue c).natAbs % 10, Nat.mod_lt _ (by norm_num)⟩ ∧
    hashValue c = c.data.foldl (fun h ch => (ch.toNat : Int) + (h * 32 - h)) 0 :=
  ⟨rfl, List.get_mem _ _ _, rfl, rfl⟩

/-- C5: the record_transformer sort column always comes from the 8-field
allow-list, falling back to transaction_date on unrecognized input, the
sort direction is always asc or desc, falling back to desc, and only the
validated identifiers are concatenated into the ORDER BY fragment of the
query text. -/
theorem sort_allowlist_fallback (sort_by sort_order : String) :
    validateSortBy sort_by ∈ valid_sort_fields ∧
    (validateSortOrder sort_order = "asc" ∨ validateSortOrder sort_order = "desc") ∧
    (sort_by ∉ valid_sort_fields → validateSortBy sort_by = "transaction_date") ∧
    (¬(sort_order = "asc" ∨ sort_order = "desc") → validateSortOrder sort_order = "desc") ∧
    orderLimitFragment sort_by sort_order =
      " ORDER BY " ++ validateSortBy sort_by ++ " " ++ validateSortOrder sort_order ++
        " LIMIT %s OFFSET %s" := by
  refine ⟨?_, ?_, ?_, ?_, rfl⟩
  · unfold validateSortBy
    split
    · assumption
    · simp [valid_sort_fields]
  · unfold validateSortOrder
    split
    · assumption
    · right
      rfl
  · intro h
    unfold validateSortBy
    rw [if_neg h]
  · intro h
    unfold validateSortOrder
    rw [if_neg h]

/-- Witness for C5 at the concrete inputs of the specification: the
out-of-allow-list sort_by value drop table falls back to transaction_date
and the invalid sort_order value up falls back to desc. -/
theorem sort_allowlist_fallback_witness :
    validateSortBy ("drop table") = "transaction_date" ∧
    validateSortOrder ("up") = "desc" := by
  have h := sort_allowlist_fallback ("drop table") ("up")
  exact ⟨h.2.2.1 (by decide), h.2.2.2.1 (by decide)⟩

/-- C7: on a data-access error, get_spending_data returns the empty list
and zero total, and get_monthly_yearly_balances returns two empty lists;
neither propagates the exception. -/
theorem read_endpoints_error_fallback (e e2 : String) (category_filter : Option String) :
    get_spending_data (Except.error e) category_filter = ([], 0) ∧
    get_monthly_yearly_balances (Except.error e2) = ([], []) :=
  ⟨rfl, rfl⟩

/-- C8: for every raw page and per_page input, the normalized page is at
least 1 and the normalized page size lies in [1, 100]; a supplied per_page
that is nonpositive or above 100 normalizes to 10, as does a missing or
non-numeric one; and the row offset is (page - 1) * per_page. -/
theorem pagination_normalization_bounds (raw_page raw_per_page : Option Int) :
    1 ≤ normalizePage raw_page ∧
    1 ≤ normalizePerPage raw_per_page ∧
    normalizePerPage raw_per_page ≤ 100 ∧
    (∀ v : Int, raw_per_page = some v → v ≤ 0 ∨ 100 < v →
      normalizePerPage raw_per_page = 10) ∧
    normalizePerPage none = 10 ∧
    pageOffset (normalizePage raw_page) (normalizePerPage raw_per_page) =
      (normalizePage raw_page - 1) * normalizePerPage raw_per_page := by
  refine ⟨?_, ?_, ?_, ?_, by norm_num [normalizePerPage], rfl⟩
  · unfold normalizePage
    cases raw_page <;> simp only [Option.getD] <;> split <;> omega
  · unfold normalizePerPage
    cases raw_per_page <;> simp only [Option.getD] <;> split <;> omega
  · unfold normalizePerPage
    cases raw_per_page <;> simp only [Option.getD] <;> split <;> omega
  · intro v hv hrange
    subst hv
    unfold normalizePerPage
    simp only [Option.getD]
    rw [if_pos]
    omega

/-- Witness for C8: an out-of-range per_page of 200 normalizes to 10 and a
negative page of -5 normalizes to a page number that is at least 1. -/
theorem pagination_normalization_bounds_witness :
    normalizePerPage (some 200) = 10 ∧ 1 ≤ normalizePage (some (-5)) := by
  have h := pagination_normalization_bounds (some (-5)) (some 200)
  exact ⟨h.2.2.2.1 200 rfl (by norm_num), h.1⟩

/-- C9: for every total count and normalized page size between 1 and 100,
the computed (total_count + per_page - 1) // per_page equals the ceiling of
total_count / per_page, and it is 0 when the total count is 0. -/
theorem total_pages_is_ceil (total_count per_page : Nat) (h1 : 1 ≤ per_page)
    (h100 : per_page ≤ 100) :
    ((totalPages total_count per_page : Nat) : Int) =
      ⌈((total_count : Nat) : ℚ) / ((per_page : Nat) : ℚ)⌉ ∧
    totalPages 0 per_page = 0 := by
  constructor
  · unfold totalPages
    obtain ⟨q, rfl⟩ : ∃ q, per_page = q + 1 := ⟨per_page - 1, by omega⟩
    have hnp : total_count + (q + 1) - 1 = total_count + q := by omega
    rw [hnp]
    have hd1 : (total_count + q) / (q + 1) * (q + 1) ≤ total_count + q :=
      Nat.div_mul_le_self _ _
    have hd2 : total_count + q < (total_count + q) / (q + 1) * (q + 1) + (q + 1) := by
      have hmod : (total_count + q) % (q + 1) < q + 1 := Nat.mod_lt _ (by omega)
      have hlt : (q + 1) * ((total_count + q) / (q + 1)) + (total_count + q) % (q + 1) <
          (q + 1) * ((total_count + q) / (q + 1)) + (q + 1) := Nat.add_lt_add_left hmod _
      rw [Nat.mul_comm]
      calc total_count + q
          = (q + 1) * ((total_count + q) / (q + 1)) + (total_count + q) % (q + 1) :=
            (Nat.div_add_mod _ _).symm
        _ < (q + 1) * ((total_count + q) / (q + 1)) + (q + 1) := hlt
    have hub : total_count ≤ (total_count + q) / (q + 1) * (q + 1) := by
      generalize (total_count + q) / (q + 1) * (q + 1) = K at hd2 ⊢
      omega
    symm
    generalize (total_count + q) / (q + 1) = m at hd1 hub ⊢
    rw [Int.ceil_eq_iff]
    have hq1 : (m : ℚ) * ((q : ℚ) + 1) ≤ (total_count : ℚ) + (q : ℚ) := by
      exact_mod_cast hd1
    have hqn : (total_count : ℚ) ≤ (m : ℚ) * ((q : ℚ) + 1) := by exact_mod_cast hub
    have hqpos : (0 : ℚ) < (q : ℚ) + 1 := by positivity
    constructor
    · push_cast
      rw [lt_div_iff₀ hqpos]
      nlinarith
    · push_cast
      rw [div_le_iff₀ hqpos]
      exact hqn
  · unfold totalPages
    rw [Nat.zero_add]
    exact Nat.div_eq_of_lt (by omega)

/-- Witness for C9 at total_count 7 and per_page 3: the computed page count
is the ceiling of 7 / 3, and a zero total count gives zero pages. -/
theorem total_pages_is_ceil_witness :
    1 ≤ 3 ∧
    ((totalPages 7 3 : Nat) : Int) = ⌈((7 : Nat) : ℚ) / ((3 : Nat) : ℚ)⌉ ∧
    totalPages 0 3 = 0 :=
  ⟨by norm_num, (total_pages_is_ceil 7 3 (by norm_num) (by norm_num)).1,
   (total_pages_is_ceil 7 3 (by norm_num) (by norm_num)).2⟩

/-- The clause list and the value list of the record_transformer filter
builder always have the same length: each truthy filter contributes exactly
one clause and one bound value. -/
theorem whereClausesParams_length (category_filter search_description : Option String) :
    (whereClausesParams category_filter search_description).1.length =
      (whereClausesParams category_filter search_description).2.length := by
  rcases category_filter with _ | c <;> rcases search_description with _ | s <;>
    simp only [whereClausesParams] <;> repeat' first | rfl | split | simp

/-- C2: for every combination of supplied and omitted category and search
parameters, the record_transformer count query binds exactly the filter
values of the row-fetch query (params[:-2] recovers them), the row-fetch
query binds those values followed by per_page and offset, and the two query
texts share the identical WHERE fragment, differing only by the ORDER BY,
LIMIT and OFFSET tail. -/
theorem count_query_filters_match_fetch
    (category_filter search_description : Option String)
    (sort_by sort_order : String) (per_page offset : Int) :
    recordTransformerCountParams category_filter search_description per_page offset =
      (whereClausesParams category_filter search_description).2 ∧
    recordTransformerFetchParams category_filter search_description per_page offset =
      (whereClausesParams category_filter search_description).2 ++
        [SqlParam.int per_page, SqlParam.int offset] ∧
    recordTransformerCountQuery category_filter search_description =
      "SELECT COUNT(*) FROM processed_records" ++
        whereSql (whereClausesParams category_filter search_description).1 ∧
    recordTransformerFetchQuery category_filter search_description sort_by sort_order =
      recordTransformerBaseQuery ++
        whereSql (whereClausesParams category_filter search_description).1 ++
        orderLimitFragment sort_by sort_order := by
  refine ⟨?_, rfl, rfl, rfl⟩
  unfold recordTransformerCountParams recordTransformerFetchParams
  by_cases h : (whereClausesParams category_filter search_description).1 = []
  · rw [if_pos h]
    symm
    rw [← List.length_eq_zero, ← whereClausesParams_length, h]
    rfl
  · rw [if_neg h]
    have hlen : ((whereClausesParams category_filter search_description).2 ++
        [SqlParam.int per_page, SqlParam.int offset]).length - 2 =
        (whereClausesParams category_filter search_description).2.length := by
      simp
    rw [hlen]
    exact List.take_left _ _

/-- C6: the submitted id string is split on commas, trimmed and cleared of
empty pieces, so the example input parses to A, B, C; a successful bulk
recategorize updates the matching rows and reports the count of parsed
submitted ids, a number that depends only on the submitted string and never
on how many stored rows matched. -/
theorem bulk_recategorize_parse_and_count :
    parseRecordIds ("A, B ,,C") = ["A", "B", "C"] ∧
    (∀ store : List ProcessedRecord,
      update_categories store (some ("A, B ,,C")) (some ("X")) none =
        (applyUpdateCategories store ["A", "B", "C"] "X",
         updateSuccessMessage 3 "X", 200)) ∧
    (∀ (store : List ProcessedRecord) (ids_str cat : String),
      ids_str ≠ "" → cat ≠ "" → parseRecordIds ids_str ≠ [] →
      (update_categories store (some ids_str) (some cat) none).2 =
        (updateSuccessMessage (parseRecordIds ids_str).length cat, 200)) := by
  have hp : parseRecordIds ("A, B ,,C") = ["A", "B", "C"] := by decide
  refine ⟨hp, fun store => ?_, fun store ids_str cat h1 h2 h3 => ?_⟩
  · simp only [update_categories, hp]
    rw [if_neg (by decide), if_neg (by decide)]
    rfl
  · simp only [update_categories]
    rw [if_neg (by simp [h1, h2]), if_neg h3]

/-- Witness for C6: applying the count property at the single id A with
category X reports the length of the parsed list. -/
theorem bulk_recategorize_parse_and_count_witness :
    ("A" : String) ≠ "" ∧
    (update_categories [] (some ("A")) (some ("X")) none).2 =
      (updateSuccessMessage (parseRecordIds ("A")).length "X", 200) :=
  ⟨by decide,
   bulk_recategorize_parse_and_count.2.2 [] "A" "X" (by decide) (by decide) (by decide)⟩

/-- C10: when the UPDATE or DELETE statement raises before conn.commit(),
the persisted store is unchanged, the endpoint never returns a success
status, and with well-formed input it returns a 500 response carrying the
error text. -/
theorem mutations_atomic_on_failure (store : List ProcessedRecord)
    (record_ids_str new_category : Option String) (e : String) :
    (update_categories store record_ids_str new_category (some e)).1 = store ∧
    (delete_records store record_ids_str (some e)).1 = store ∧
    (update_categories store record_ids_str new_category (some e)).2.2 ≠ 200 ∧
    (delete_records store record_ids_str (some e)).2.2 ≠ 200 ∧
    (∀ ids_str cat : String, record_ids_str = some ids_str → new_category = some cat →
      ids_str ≠ "" → cat ≠ "" → parseRecordIds ids_str ≠ [] →
      (update_categories store record_ids_str new_category (some e)).2 =
        ("Error updating categories: " ++ e, 500)) ∧
    (∀ ids_str : String, record_ids_str = some ids_str → ids_str ≠ "" →
      parseRecordIds ids_str ≠ [] →
      (delete_records store record_ids_str (some e)).2 =
        ("Error deleting records: " ++ e, 500)) := by
  refine ⟨?_, ?_, ?_, ?_, ?_, ?_⟩
  · rcases record_ids_str with _ | ids <;> rcases new_category with _ | cat <;>
      simp only [update_categories] <;> repeat' first | rfl | split
  · rcases record_ids_str with _ | ids <;>
      simp only [delete_records] <;> repeat' first | rfl | split
  · rcases record_ids_str with _ | ids <;> rcases new_category with _ | cat <;>
      simp only [update_categories] <;> (repeat' split) <;> simp
  · rcases record_ids_str with _ | ids <;>
      simp only [delete_records] <;> (repeat' split) <;> simp
  · rintro ids_str cat rfl rfl h1 h2 h3
    simp only [update_categories]
    rw [if_neg (by simp [h1, h2]), if_neg h3]
  · rintro ids_str rfl h1 h3
    simp only [delete_records]
    rw [if_neg h1, if_neg h3]

/-- Witness for C10: an injected statement failure at a well-formed request
leaves the empty store unchanged and yields the two 500 responses. -/
theorem mutations_atomic_on_failure_witness :
    (update_categories [] (some ("A")) (some ("X")) (some ("boom"))).2 =
      ("Error updating categories: " ++ "boom", 500) ∧
    (delete_records [] (some ("A")) (some ("boom"))).2 =
      ("Error deleting records: " ++ "boom", 500) ∧
    (update_categories [] (some ("A")) (some ("X")) (some ("boom"))).1 = [] := by
  have h := mutations_atomic_on_failure [] (some ("A")) (some ("X")) "boom"
  exact ⟨h.2.2.2.2.1 "A" "X" rfl rfl (by decide) (by decide) (by decide),
         h.2.2.2.2.2 "A" rfl (by decide) (by decide), h.1⟩

/-- Counting helper: over a duplicate-free key list, the number of summary
items whose COALESCE label is Uncategorized is one per present key among
the NULL key and the literal Uncategorized key. -/
theorem countP_uncat_pairs (filtered : List ProcessedRecord) :
    ∀ keys : List (Option String), keys.Nodup →
      (keys.map (fun k => (coalesceCategory k, groupSum filtered k))).countP
          (fun it => it.1 = "Uncategorized") =
        (if none ∈ keys then 1 else 0) +
          (if some ("Uncategorized") ∈ keys then 1 else 0) := by
  intro keys
  induction keys with
  | nil => simp
  | cons a t ih =>
    intro h
    obtain ⟨ha, ht⟩ := List.nodup_cons.mp h
    rw [List.map_cons, List.countP_cons, ih ht]
    by_cases hn : (none : Option String) ∈ t <;>
      by_cases hu : (some ("Uncategorized") : Option String) ∈ t <;>
        rcases a with _ | s <;>
          simp_all [coalesceCategory, List.mem_cons] <;>
            by_cases hs : s = "Uncategorized" <;> simp_all <;>
              rw [if_neg (fun hh => hs hh.symm)]

/-- Amended C1: the group key of the spending query is the raw category
column (PostgreSQL resolves the ambiguous GROUP BY name to the input
column, not to the COALESCE select alias), so the returned items carry one
Uncategorized entry for the NULL group whenever a NULL-category row is
present and a separate Uncategorized entry for the literal group whenever a
row with the literal category Uncategorized is present: the two kinds merge
into a single item only when rows of at most one kind exist. -/
theorem uncategorized_label_group_count (rows : List ProcessedRecord)
    (category_filter : Option String) :
    countUncategorizedLabel (runSpendingQuery rows category_filter) =
      (if none ∈ (applyCategoryFilter rows category_filter).map (fun r => r.category)
        then 1 else 0) +
      (if some ("Uncategorized") ∈
          (applyCategoryFilter rows category_filter).map (fun r => r.category)
        then 1 else 0) := by
  simp only [countUncategorizedLabel, runSpendingQuery, sortByAmountDesc, groupKeys]
  rw [(List.perm_insertionSort _ _).countP_eq]
  rw [countP_uncat_pairs _ _ (List.nodup_dedup _)]
  simp only [List.mem_dedup]

/-- Counterexample to C1 as stated: with one NULL-category row of amount 10
and one literal-Uncategorized row of amount 20, the spending aggregation
returns TWO separate items both labelled Uncategorized, not a single merged
item. -/
theorem uncategorized_rows_split_counterexample :
    runSpendingQuery c1Rows none =
      [(("Uncategorized" : String), (20 : Rat)), ("Uncategorized", 10)] ∧
    countUncategorizedLabel (runSpendingQuery c1Rows none) = 2 := by
  have hsn : ((some ("Uncategorized") : Option String) = none) ↔ False := by simp
  have hns : ((none : Option String) = some ("Uncategorized")) ↔ False := by simp
  have hkeys : groupKeys c1Rows = [none, some ("Uncategorized")] := by decide
  have hsum1 : groupSum c1Rows none = 10 := by
    norm_num [groupSum, c1Rows, List.filter_cons, List.filter_nil, hsn]
  have hsum2 : groupSum c1Rows (some ("Uncategorized")) = 20 := by
    norm_num [groupSum, c1Rows, List.filter_cons, List.filter_nil, hns]
  have hitems : runSpendingQuery c1Rows none =
      [(("Uncategorized" : String), (20 : Rat)), ("Uncategorized", 10)] := by
    show sortByAmountDesc
        ((groupKeys (applyCategoryFilter c1Rows none)).map
          (fun k => (coalesceCategory k, groupSum (applyCategoryFilter c1Rows none) k))) = _
    have hfil : applyCategoryFilter c1Rows none = c1Rows := rfl
    rw [hfil, hkeys]
    simp only [List.map_cons, List.map_nil, hsum1, hsum2, coalesceCategory]
    norm_num [sortByAmountDesc, List.insertionSort, List.orderedInsert]
  refine ⟨hitems, ?_⟩
  rw [hitems]
  simp [countUncategorizedLabel]

end SpendLens
